import Mathlib

/-!
Verification development for the spreadsheet caseload extraction engine
(normalize_to_single_csv.py).  The script below is shallowly embedded:
the grid of cells of the first sheet of one file becomes a list of rows
of cell values, and every helper of the script becomes a Lean function
over that grid.  Cells are text, integers, exact decimals, or blank
(blank also stands for the reader's NaN and for out-of-range reads,
both of which the script coerces to an absent value).  Rational numbers
stand for the decimal values the script handles; non-finite floats are
outside the embedded value domain.
-/

namespace Caseloads

/-- Whitespace for the embedded regular expressions and for text
stripping, matching the characters the script's patterns treat as
whitespace. -/
def isWS (c : Char) : Bool :=
  c = ' ' || c = '\t' || c = '\n' || c = '\r' || c = '\x0b' || c = '\x0c'

/-- Lower-case a character list (ASCII, as in the script's .lower()). -/
def toLowerChars (l : List Char) : List Char := l.map Char.toLower

/-- Strip leading and trailing whitespace from a character list
(the script's str.strip()). -/
def trimChars (l : List Char) : List Char :=
  ((l.dropWhile isWS).reverse.dropWhile isWS).reverse

/-- Strip leading and trailing whitespace from a string. -/
def strTrim (s : String) : String := String.mk (trimChars s.toList)

/-- Lower-case a string. -/
def lowerStr (s : String) : String := String.mk (toLowerChars s.toList)

/-- Upper-case a string (used to state case-insensitivity facts). -/
def upperStr (s : String) : String := String.mk (s.toList.map Char.toUpper)

/-- Contiguous-substring test on character lists (the script's
`needle in haystack` and pandas str.contains on a plain pattern). -/
def isSubList (needle : List Char) : List Char → Bool
  | [] => needle.isEmpty
  | c :: rest => needle.isPrefixOf (c :: rest) || isSubList needle rest

/-- Number of leading whitespace characters (used to embed a greedy
`\s+` item of the script's regular expressions). -/
def leadWS (l : List Char) : Nat := (l.takeWhile isWS).length

/-- One spreadsheet cell as loaded by the grid loader (header=None,
dtype=object): text, an integer, a finite decimal, or blank.  Blank
covers NaN cells and reads outside the grid. -/
inductive Cell where
  | blank
  | str (s : String)
  | int (i : Int)
  | float (q : Rat)
deriving DecidableEq

/-- The grid of one sheet: rows of cells, indexed from zero. -/
def Grid := List (List Cell)

/-- Rendering of a cell as text, following Python str() as applied by
astype(str): NaN renders as "nan".  The rendering of a non-integral
decimal is approximate; no theorem below depends on it. -/
def cellToStr : Cell → String
  | Cell.blank => "nan"
  | Cell.str s => s
  | Cell.int i => toString i
  | Cell.float q => if q.den = 1 then toString q.num ++ ".0" else toString q

/-- Cell at (row, column); out-of-range reads give blank, which the
script turns into None via its try/except around df.iat. -/
def cellAt (grid : Grid) (r c : Nat) : Cell :=
  ((grid.getD r []).getD c Cell.blank)

/-- Number of rows of the grid (df.shape[0]). -/
def gridRows (grid : Grid) : Nat := grid.length

/-- Number of columns of the grid (df.shape[1]): the sheet is
rectangular, so the widest row gives the width. -/
def gridWidth (grid : Grid) : Nat :=
  grid.foldr (fun row acc => max row.length acc) 0

/-- The text of one row, cells joined with single spaces, as in
df.iloc[idx].astype(str).str.cat(sep=" "). -/
def rowStr (grid : Grid) (idx : Nat) : String :=
  String.intercalate " " ((grid.getD idx []).map cellToStr)

/-- SC_COUNTIES: the exact 46-entry roster from the script. -/
def SC_COUNTIES : List String :=
  ["Abbeville","Aiken","Allendale","Anderson","Bamberg","Barnwell","Beaufort","Berkeley",
   "Calhoun","Charleston","Cherokee","Chester","Chesterfield","Clarendon","Colleton",
   "Darlington","Dillon","Dorchester","Edgefield","Fairfield","Florence","Georgetown",
   "Greenville","Greenwood","Hampton","Horry","Jasper","Kershaw","Lancaster","Laurens",
   "Lee","Lexington","Marion","Marlboro","McCormick","Newberry","Oconee","Orangeburg",
   "Pickens","Richland","Roswell","Saluda","Spartanburg","Sumter","Union","Williamsburg"]

/-- EXPECTED_METRICS: metric labels for the standard categories. -/
def EXPECTED_METRICS : List String :=
  ["Pending first of month", "Added", "Disposed", "Pending end of Month"]

/-- EXPECTED_METRICS_MENTAL_HEALTH: metric labels for Mental Health. -/
def EXPECTED_METRICS_MENTAL_HEALTH : List String :=
  ["Added", "Orders"]

/-- MONTH_ORDER: the fixed July-through-June month sequence. -/
def MONTH_ORDER : List String :=
  ["July","August","September","October","November","December",
   "January","February","March","April","May","June"]

/-- FALLBACK_COL_POSITIONS: positional template C..Q without F, J, N. -/
def FALLBACK_COL_POSITIONS : List Nat := [2,3,4,6,7,8,10,11,12,14,15,16]

/-- VALID_CATEGORIES: the category vocabulary. -/
def VALID_CATEGORIES : List String :=
  ["Estate", "Guardian", "Conservator", "Mental Health"]

/-- The section-header marker phrase. -/
def MARKER : String := "South Carolina Court Administration"

/-- normalize_county_name, step two: remove a trailing
county-suffix match of the pattern \b[Cc]ounty\b\.?\,?$ (the word
County or county, then an optional period, then an optional comma, at
the end of the text, preceded by a word boundary). -/
def countySuffixForms : List (List Char) :=
  (["County", "county"].flatMap (fun w => ["", ".", ",", ".,"].map (fun p => (w ++ p).toList)))

/-- Word characters for the regex word boundary \b. -/
def isWordChar (c : Char) : Bool := c.isAlpha || c.isDigit || c = '_'

/-- Remove the trailing county suffix if the anchored pattern matches;
at most one suffix form can match since each must reach the end of the
text. -/
def stripCountySuffix (s : String) : String :=
  let cs := s.toList
  match countySuffixForms.find? (fun suf =>
      suf.isSuffixOf cs &&
      (cs.length = suf.length || !isWordChar (cs.getD (cs.length - suf.length - 1) ' '))) with
  | some suf => String.mk (cs.take (cs.length - suf.length))
  | none => s

/-- normalize_county_name: strip, remove the trailing county suffix,
strip again.  The script's None branch for non-string cells never
fires here because callers pass astype(str) renderings. -/
def normalize_county_name (s : String) : String :=
  strTrim (stripCountySuffix (strTrim s))

/-- Resolution of one column-0 cell text against the roster: skip a
falsy (empty) normalized name, then take the first roster entry whose
lower-cased name equals the lower-cased normalized text.  This is the
inner matching loop of find_county_rows_in_section. -/
def resolveCounty (cellText : String) : Option String :=
  let name := normalize_county_name cellText
  if name = "" then none
  else SC_COUNTIES.find? (fun county => toLowerChars name.toList = toLowerChars county.toList)

/-- Row indices visited by df.iloc[s:e] together with the redundant
in-bounds check of find_county_rows_in_section. -/
def sliceIdx (n s e : Nat) : List Nat :=
  (List.range n).filter (fun i => decide (s ≤ i) && decide (i < e))

/-- find_county_rows_in_section: scan column 0 of the rows of the
section range and record (county, row position) for each resolved
roster match.  The script also records the 1-based Excel row number,
which carries no extra information and is dropped here. -/
def find_county_rows_in_section (grid : Grid) (section_start section_end : Nat) :
    List (String × Nat) :=
  (sliceIdx grid.length section_start section_end).filterMap
    (fun i => (resolveCounty (cellToStr (cellAt grid i 0))).map (fun county => (county, i)))

/-- Cell texts of one row as prepared by get_month_column_positions:
astype(str).str.strip().str.lower(). -/
def procRow (grid : Grid) (ri : Nat) : List (List Char) :=
  (grid.getD ri []).map (fun c => toLowerChars (trimChars (cellToStr c).toList))

/-- First column of the row whose text contains "july"
(row_values.str.contains("july") followed by .index[0]). -/
def firstJulyCol (row : List (List Char)) : Option Nat :=
  (List.range row.length).find? (fun c => isSubList ("july".toList) (row.getD c []))

/-- One row's month scan: for each month of MONTH_ORDER take the first
column at or after the fixed start column whose text contains the
month name; succeed only when 12 positions were collected.  The start
column does not advance between months. -/
def monthsSearchRow (row : List (List Char)) : Option (List Nat) :=
  match firstJulyCol row with
  | none => none
  | some c0 =>
    let ps := MONTH_ORDER.filterMap (fun m =>
      (List.range row.length).find?
        (fun c => decide (c0 ≤ c) && isSubList (toLowerChars m.toList) (row.getD c [])))
    if ps.length = 12 then some ps else none

/-- Rows searched for the month header: the section header row and the
next four rows, clipped to the grid. -/
def monthSearchRows (grid : Grid) (srow : Nat) : List Nat :=
  List.range' srow (min (srow + 5) grid.length - srow)

/-- The label-based (primary) part of get_month_column_positions: the
first searched row whose month scan collects exactly 12 positions. -/
def get_month_column_positions_label (grid : Grid) (srow : Nat) : Option (List Nat) :=
  (monthSearchRows grid srow).findSome? (fun ri => monthsSearchRow (procRow grid ri))

/-- get_month_column_positions: the label-based result when it exists,
otherwise the positional fallback clipped to the sheet width, and as a
last resort the in-range positions of columns 2..16 without 5, 9, 13. -/
def get_month_column_positions (grid : Grid) (srow : Nat) : List Nat :=
  match get_month_column_positions_label grid srow with
  | some ps => ps
  | none =>
    let maxIndex := gridWidth grid - 1
    let positions := FALLBACK_COL_POSITIONS.filter (fun p => decide (p ≤ maxIndex))
    if positions.length = 12 then positions
    else (List.range' 2 (min 17 (gridWidth grid) - 2)).filter
      (fun i => !(i = 5 || i = 9 || i = 13))

/-- A numeric value as produced by cell_to_number: an integer or a
finite decimal. -/
inductive PyNum where
  | ofInt (i : Int)
  | ofFloat (q : Rat)
deriving DecidableEq

/-- Numeric value of a run of decimal digits. -/
def digitsVal (l : List Char) : Nat :=
  l.foldl (fun acc c => 10 * acc + (c.toNat - 48)) 0

/-- Python int(s) on stripped comma-free text: an optional sign and
one or more digits. -/
def parseIntPy (s : List Char) : Option Int :=
  let core : List Char → Option Int := fun l =>
    if l ≠ [] ∧ l.all Char.isDigit then some (digitsVal l : Int) else none
  match s with
  | '+' :: rest => core rest
  | '-' :: rest => (core rest).map (fun i => -i)
  | _ => core s

/-- Python float(s) on finite decimal literals: an optional sign,
digits with an optional point, and an optional exponent. -/
def parseFloatPy (s : List Char) : Option Rat :=
  let exppart : List Char → Option Int := fun l =>
    match l with
    | [] => some 0
    | 'e' :: rest => parseIntPy rest
    | 'E' :: rest => parseIntPy rest
    | _ => none
  let unsigned : List Char → Option Rat := fun l =>
    let ip := l.takeWhile Char.isDigit
    let rest := l.dropWhile Char.isDigit
    match rest with
    | '.' :: rest2 =>
      let fp := rest2.takeWhile Char.isDigit
      let rest3 := rest2.dropWhile Char.isDigit
      if ip = [] ∧ fp = [] then none
      else (exppart rest3).map (fun e =>
        ((digitsVal ip : Rat) + (digitsVal fp : Rat) / ((10 : Rat) ^ fp.length)) *
          (10 : Rat) ^ e)
    | _ =>
      if ip = [] then none
      else (exppart rest).map (fun e => (digitsVal ip : Rat) * (10 : Rat) ^ e)
  match s with
  | '+' :: rest => unsigned rest
  | '-' :: rest => (unsigned rest).map (fun q => -q)
  | _ => unsigned s

/-- cell_to_number: NaN/blank gives absent; a numeric cell is used
as-is; text is stripped, commas removed, and parsed as an integer when
it has no point (falling back to a decimal parse), as a decimal when
it has one; anything unparsable is absent. -/
def cell_to_number : Cell → Option PyNum
  | Cell.blank => none
  | Cell.int i => some (PyNum.ofInt i)
  | Cell.float q => some (PyNum.ofFloat q)
  | Cell.str v =>
    let s := (trimChars v.toList).filter (fun c => c ≠ ',')
    if s = [] then none
    else if s.contains '.' then (parseFloatPy s).map PyNum.ofFloat
    else
      match parseIntPy s with
      | some i => some (PyNum.ofInt i)
      | none => (parseFloatPy s).map PyNum.ofFloat

/-- Marker test of find_header_rows: the marker phrase occurs
(case-sensitively) in the joined row text. -/
def markerInRow (grid : Grid) (idx : Nat) : Bool :=
  isSubList MARKER.toList (rowStr grid idx).toList

/-- Lower-cased marker, for the case-insensitive category pattern. -/
def markerLower : List Char := toLowerChars MARKER.toList

/-- Lower-cased literal Monthly of the category pattern. -/
def monthlyLower : List Char := "monthly".toList

/-- Tail test of the category pattern: some non-empty whitespace run
followed by the literal Monthly starts here (the second \s+ item with
its backtracking reduces to this existence check). -/
def tailOK (l : List Char) : Bool :=
  (List.range (leadWS l + 1)).any
    (fun k => decide (1 ≤ k) && monthlyLower.isPrefixOf (l.drop k))

/-- The lazy group (.*?) of the category pattern: the shortest group
whose remainder passes the tail test. -/
def tryGroups : List Char → Option (List Char)
  | [] => none
  | c :: rest =>
    if tailOK (c :: rest) then some []
    else (tryGroups rest).map (fun g => c :: g)

/-- The first \s+ item of the category pattern: greedy, so run lengths
are tried from the full leading whitespace run downwards. -/
def tryRuns (afterMarker : List Char) : Nat → Option (List Char)
  | 0 => none
  | fr + 1 =>
    match tryGroups (afterMarker.drop (fr + 1)) with
    | some g => some g
    | none => tryRuns afterMarker fr

/-- Match of the category pattern directly after the marker. -/
def catAfter (rest : List Char) : Option (List Char) :=
  tryRuns rest (leadWS rest)

/-- re.search of the category pattern over lower-cased text: the
leftmost start where the marker matches and the remainder admits a
match; the group of that match is returned. -/
def searchCategory : List Char → Option (List Char)
  | [] => none
  | c :: rest =>
    if markerLower.isPrefixOf (c :: rest) then
      match catAfter ((c :: rest).drop markerLower.length) with
      | some g => some g
      | none => searchCategory rest
    else searchCategory rest

/-- Concatenated text of the header row and the next two rows, each
prefixed with a space, as built by extract_category_from_header. -/
def headerText (grid : Grid) (h : Nat) : String :=
  ((List.range' h (min (h + 3) grid.length - h)).map
    (fun ri => " " ++ rowStr grid ri)).foldl (fun a b => a ++ b) ""

/-- extract_category_from_header: search the lower-cased combined
header text for the text between the marker and Monthly, then return
the first vocabulary category contained in the stripped group.  The
group is taken from the lower-cased text, which matches the script's
later case-insensitive containment check. -/
def extract_category_from_header (grid : Grid) (h : Nat) : Option String :=
  match searchCategory (toLowerChars (headerText grid h).toList) with
  | none => none
  | some g =>
    let extracted := trimChars g
    VALID_CATEGORIES.find?
      (fun cat => isSubList (toLowerChars cat.toList) (toLowerChars extracted))

/-- Consume a non-empty whitespace run (the \s+ items of the period
pattern are each followed by a non-whitespace literal, so greedy
consumption is exact). -/
def wsSkip1 (l : List Char) : Option (List Char) :=
  if leadWS l = 0 then none else some (l.drop (leadWS l))

/-- Consume a literal. -/
def litP (pat : List Char) (l : List Char) : Option (List Char) :=
  if pat.isPrefixOf l then some (l.drop pat.length) else none

/-- Consume the pattern 0?c: an optional zero then the digit c. -/
def opt0 (c : Char) : List Char → Option (List Char)
  | '0' :: c2 :: rest => if c2 = c then some rest else none
  | ['0'] => none
  | c2 :: rest => if c2 = c then some rest else none
  | [] => none

/-- Consume exactly four digits and return their value. -/
def digits4 (l : List Char) : Option (Int × List Char) :=
  match l with
  | a :: b :: c :: d :: rest =>
    if a.isDigit && b.isDigit && c.isDigit && d.isDigit then
      some (((digitsVal [a, b, c, d] : Nat) : Int), rest)
    else none
  | _ => none

/-- Match of the period pattern
Period\s+0?7/0?1/(\d{4})\s+through\s+0?6/30/(\d{4}) at one start of
the lower-cased text. -/
def parsePeriodAt (l : List Char) : Option (Int × Int) := do
  let l1 ← litP ("period".toList) l
  let l2 ← wsSkip1 l1
  let l3 ← opt0 '7' l2
  let l4 ← litP ['/'] l3
  let l5 ← opt0 '1' l4
  let l6 ← litP ['/'] l5
  let (y1, l7) ← digits4 l6
  let l8 ← wsSkip1 l7
  let l9 ← litP ("through".toList) l8
  let l10 ← wsSkip1 l9
  let l11 ← opt0 '6' l10
  let l12 ← litP ("/30/".toList) l11
  let (y2, _) ← digits4 l12
  some (y1, y2)

/-- re.search of the period pattern: leftmost matching start. -/
def searchPeriod : List Char → Option (Int × Int)
  | [] => none
  | c :: rest =>
    match parsePeriodAt (c :: rest) with
    | some r => some r
    | none => searchPeriod rest

/-- extract_years_from_section: scan the header row and the next five
rows, row by row, for the period pattern; first match wins. -/
def extract_years_from_section (grid : Grid) (h : Nat) : Option (Int × Int) :=
  (List.range' h (min (h + 6) grid.length - h)).findSome?
    (fun ri => searchPeriod (toLowerChars (rowStr grid ri).toList))

/-- One candidate row of find_header_rows: the row is kept exactly
when it holds the marker and both a category and a period are
recoverable (the script computes both and tests them together, which
yields the same survivors). -/
def headerAt (grid : Grid) (idx : Nat) : Option (Nat × String × Int × Int) :=
  if markerInRow grid idx then
    match extract_category_from_header grid idx with
    | none => none
    | some cat =>
      match extract_years_from_section grid idx with
      | none => none
      | some (y1, y2) => some (idx, cat, y1, y2)
  else none

/-- find_header_rows: every row holding the marker phrase for which
both a category and a period are recoverable, with those values. -/
def find_header_rows (grid : Grid) : List (Nat × String × Int × Int) :=
  (List.range grid.length).filterMap (headerAt grid)

/-- Category test of the main loop: the text Mental Health occurs in
the category string. -/
def mentalHealthCat (category : String) : Bool :=
  isSubList ("Mental Health".toList) category.toList

/-- Metric row positions beneath a county row: two rows for Mental
Health, four otherwise. -/
def metric_rows_for (category : String) (row_pos : Nat) : List Nat :=
  if mentalHealthCat category then List.range' (row_pos + 1) 2
  else List.range' (row_pos + 1) 4

/-- Metric vocabulary for a category. -/
def vocab_for (category : String) : List String :=
  if mentalHealthCat category then EXPECTED_METRICS_MENTAL_HEALTH else EXPECTED_METRICS

/-- Metric label read from column 1 of a row: stripped cell text when
the sheet has a second column, otherwise empty. -/
def metric_label_at (grid : Grid) (r : Nat) : String :=
  if 1 < gridWidth grid then strTrim (cellToStr (cellAt grid r 1)) else ""

/-- Metric label mapping: clean the label of asterisks and whitespace,
then take the first vocabulary entry that the cleaned label starts
with or that occurs inside it (case-insensitively); otherwise the
cleaned label itself, or the placeholder when empty. -/
def map_metric (vocab : List String) (lbl : String) : String :=
  let clean := strTrim (String.mk ((lbl.toList).filter (fun c => c ≠ '*')))
  match vocab.find? (fun e =>
      (toLowerChars e.toList).isPrefixOf (toLowerChars clean.toList) ||
      isSubList (toLowerChars e.toList) (toLowerChars clean.toList)) with
  | some e => e
  | none => if clean = "" then "Unknown Metric" else clean

/-- Month name for a month-column position index. -/
def month_name_at (ci : Nat) : String :=
  if ci < MONTH_ORDER.length then MONTH_ORDER.getD ci ""
  else "Month_" ++ toString (ci + 1)

/-- Year assignment: July through December take the section's start
year, every other month name the end year. -/
def year_for (y1 y2 : Int) (month : String) : Int :=
  if lowerStr month ∈ ["july", "august", "september", "october", "november", "december"]
  then y1 else y2

/-- One normalized output record. -/
structure Entry where
  file : String
  category : String
  year : Int
  month : String
  county : String
  metric : String
  value : Option PyNum
deriving DecidableEq

/-- Records emitted for one county match: skip the county when its
last metric row reaches the grid end or the section end, otherwise
one record per metric row and month column, in that nesting order. -/
def emit_county_records (grid : Grid) (file category : String) (y1 y2 : Int)
    (month_cols : List Nat) (section_end : Nat) (county : String) (row_pos : Nat) :
    List Entry :=
  let mrows := metric_rows_for category row_pos
  if gridRows grid ≤ mrows.getLastD 0 ∨ section_end ≤ mrows.getLastD 0 then []
  else
    let mapped := mrows.map (fun r => map_metric (vocab_for category) (metric_label_at grid r))
    mrows.enum.flatMap (fun p =>
      month_cols.enum.map (fun q =>
        { file := file
          category := category
          year := year_for y1 y2 (month_name_at q.1)
          month := month_name_at q.1
          county := county
          metric := mapped.getD p.1 ""
          value := cell_to_number (cellAt grid p.2 q.2) }))

/-- Records emitted for one section: month columns located from the
header row, counties located in the section's row range, and county
blocks emitted in order. -/
def emit_section_records (grid : Grid) (file : String) (header_row : Nat)
    (category : String) (y1 y2 : Int) (section_end : Nat) : List Entry :=
  let month_cols := get_month_column_positions grid header_row
  (find_county_rows_in_section grid header_row section_end).flatMap
    (fun cm => emit_county_records grid file category y1 y2 month_cols section_end cm.1 cm.2)

/-- Exclusive row end of the k-th section: the next header row, or
the grid's row count for the last section. -/
def section_end_at (grid : Grid) (hs : List (Nat × String × Int × Int)) (k : Nat) : Nat :=
  if k + 1 < hs.length then (hs.getD (k + 1) (0, "", 0, 0)).1 else gridRows grid

/-- Records emitted for one file: sections from find_header_rows, each
processed over its own row range. -/
def emit_file_records (grid : Grid) (file : String) : List Entry :=
  (List.range (find_header_rows grid).length).flatMap (fun k =>
    let hd := (find_header_rows grid).getD k (0, "", 0, 0)
    emit_section_records grid file hd.1 hd.2.1 hd.2.2.1 hd.2.2.2
      (section_end_at grid (find_header_rows grid) k))

/-- A small valid Estate section: header, period, one county and its
four metric rows; three columns wide, so month detection uses the
clipped positional fallback, giving the single month column 2. -/
def gridDemo : Grid :=
  [[Cell.str "South Carolina Court Administration Estate Monthly", Cell.str "", Cell.str ""],
   [Cell.str "Period 07/01/2022 through 06/30/2023", Cell.str "", Cell.str ""],
   [Cell.str "Richland", Cell.str "", Cell.str ""],
   [Cell.str "", Cell.str "Pending first of month", Cell.int 5],
   [Cell.str "", Cell.str "Added", Cell.int 3],
   [Cell.str "", Cell.str "Disposed", Cell.blank],
   [Cell.str "", Cell.str "Pending end of Month", Cell.str "1,234"]]

/-- A month header row in which the June label sits directly after the
July label, before all the other month labels. -/
def gridMonths : Grid :=
  [[Cell.str "july", Cell.str "june", Cell.str "august", Cell.str "september",
    Cell.str "october", Cell.str "november", Cell.str "december", Cell.str "january",
    Cell.str "february", Cell.str "march", Cell.str "april", Cell.str "may"]]

/-- A section in which the same county name appears on two rows, far
enough apart for both metric blocks to fit. -/
def gridDup : Grid :=
  [[Cell.str "", Cell.str "", Cell.str ""],
   [Cell.str "Richland", Cell.str "", Cell.str ""],
   [Cell.str "", Cell.str "", Cell.int 1],
   [Cell.str "", Cell.str "", Cell.int 2],
   [Cell.str "", Cell.str "", Cell.int 3],
   [Cell.str "", Cell.str "", Cell.int 4],
   [Cell.str "Richland", Cell.str "", Cell.str ""],
   [Cell.str "", Cell.str "", Cell.int 5],
   [Cell.str "", Cell.str "", Cell.int 6],
   [Cell.str "", Cell.str "", Cell.int 7],
   [Cell.str "", Cell.str "", Cell.int 8]]

/-- A file with one valid header (row 0) and one discarded header
candidate (row 7: the marker occurs but neither a category nor a
period is recoverable from it). -/
def gridC9 : Grid :=
  [[Cell.str "South Carolina Court Administration Estate Monthly"],
   [Cell.str "Period 07/01/2022 through 06/30/2023"],
   [Cell.str ""],
   [Cell.str "Richland"],
   [Cell.str ""],
   [Cell.str ""],
   [Cell.str ""],
   [Cell.str "South Carolina Court Administration leftover"]]

/-- The first record emitted for gridDemo's section. -/
def entryDemo : Entry :=
  { file := "f", category := "Estate", year := 2022, month := "July",
    county := "Richland", metric := "Pending first of month",
    value := some (PyNum.ofInt 5) }

theorem length_flatMap_const {γ β : Type} (f : γ → List β) (m : Nat) :
    ∀ L : List γ, (∀ a ∈ L, (f a).length = m) → (L.flatMap f).length = L.length * m
  | [], _ => by simp
  | a :: t, h => by
    simp only [List.flatMap_cons, List.length_append, List.length_cons]
    rw [h a (by simp), length_flatMap_const f m t (fun x hx => h x (by simp [hx]))]
    ring

theorem getElem?_eq_some_getD {γ : Type} (l : List γ) (i : Nat) (d : γ)
    (h : i < l.length) : l[i]? = some (l.getD i d) := by
  rw [List.getElem?_eq_getElem h, List.getD_eq_getElem?_getD, List.getElem?_eq_getElem h]
  rfl

theorem getElem?_flatMap_const {γ β : Type} (f : γ → List β) (m : Nat) (a₀ : γ) :
    ∀ (L : List γ) (i j : Nat), (∀ a ∈ L, (f a).length = m) → i < L.length → j < m →
      (L.flatMap f)[i * m + j]? = (f (L.getD i a₀))[j]?
  | [], i, _, _, hi, _ => by simp at hi
  | a :: t, 0, j, h, _, hj => by
    simp only [List.flatMap_cons, Nat.zero_mul, Nat.zero_add, List.getD_cons_zero]
    exact List.getElem?_append_left (by rw [h a (by simp)]; exact hj)
  | a :: t, i + 1, j, h, hi, hj => by
    simp only [List.flatMap_cons, List.getD_cons_succ]
    have hlen : (f a).length = m := h a (by simp)
    have harith : (i + 1) * m + j = (f a).length + (i * m + j) := by
      rw [hlen]; ring
    rw [harith, List.getElem?_append_right (by omega), Nat.add_sub_cancel_left]
    exact getElem?_flatMap_const f m a₀ t i j (fun x hx => h x (by simp [hx]))
      (by simpa using hi) hj

theorem enumFrom_getD {δ : Type} (d1 : Nat) (d2 : δ) :
    ∀ (l : List δ) (n i : Nat), i < l.length →
      (List.enumFrom n l).getD i (d1, d2) = (n + i, l.getD i d2)
  | [], _, i, h => by simp at h
  | a :: t, n, 0, _ => by simp [List.enumFrom]
  | a :: t, n, i + 1, h => by
    simp only [List.enumFrom, List.getD_cons_succ]
    rw [enumFrom_getD d1 d2 t (n + 1) i (by simpa using h)]
    have : n + 1 + i = n + (i + 1) := by omega
    rw [this]

theorem range'_getD : ∀ (n s i : Nat), i < n → (List.range' s n).getD i 0 = s + i
  | 0, _, i, h => by omega
  | n + 1, s, 0, _ => by simp [List.range'_succ]
  | n + 1, s, i + 1, h => by
    rw [List.range'_succ]
    simp only [List.getD_cons_succ]
    rw [range'_getD n (s + 1) i (by omega)]
    omega

theorem filterMap_proj_sublist {β : Type} (f : Nat → Option β) (p : β → Nat)
    (hf : ∀ i x, f i = some x → p x = i) :
    ∀ l : List Nat, List.Sublist ((l.filterMap f).map p) l
  | [] => by simp
  | a :: t => by
    cases hfa : f a with
    | none =>
      rw [List.filterMap_cons_none hfa]
      exact (filterMap_proj_sublist f p hf t).cons a
    | some x =>
      rw [List.filterMap_cons_some hfa]
      rw [List.map_cons, hf a x hfa]
      exact (filterMap_proj_sublist f p hf t).cons₂ a

theorem getD_mem {γ : Type} (l : List γ) (n : Nat) (d : γ) (h : n < l.length) :
    l.getD n d ∈ l := by
  rw [List.getD_eq_getElem?_getD, List.getElem?_eq_getElem h]
  exact List.getElem_mem h

theorem exists_of_findSome {γ β : Type} (f : γ → Option β) :
    ∀ (l : List γ) (b : β), l.findSome? f = some b → ∃ a ∈ l, f a = some b
  | [], b, h => by simp [List.findSome?_nil] at h
  | a :: t, b, h => by
    rw [List.findSome?_cons] at h
    cases hfa : f a with
    | some c =>
      rw [hfa] at h
      exact ⟨a, by simp, by rw [hfa]; exact h⟩
    | none =>
      rw [hfa] at h
      obtain ⟨x, hx, hfx⟩ := exists_of_findSome f t b h
      exact ⟨x, by simp [hx], hfx⟩

/-- C7: numeric coercion of a cell: a numeric cell value is used
as-is; the text "1,234" coerces to the integer 1234; the text "12.5"
coerces to the decimal 12.5; an empty or blank cell coerces to absent;
non-numeric text coerces to absent. -/
theorem claim7_cell_to_number_spec :
    (∀ i : Int, cell_to_number (Cell.int i) = some (PyNum.ofInt i)) ∧
    (∀ q : Rat, cell_to_number (Cell.float q) = some (PyNum.ofFloat q)) ∧
    cell_to_number (Cell.str "1,234") = some (PyNum.ofInt 1234) ∧
    cell_to_number (Cell.str "12.5") = some (PyNum.ofFloat (25 / 2 : Rat)) ∧
    cell_to_number (Cell.str "") = none ∧
    cell_to_number (Cell.str "   ") = none ∧
    cell_to_number Cell.blank = none ∧
    cell_to_number (Cell.str "garbage") = none := by
  refine ⟨fun _ => rfl, fun _ => rfl, by decide, ?_, by decide, by decide, rfl, by decide⟩
  rw [show cell_to_number (Cell.str "12.5")
      = some (PyNum.ofFloat ((((12 : Nat) : Rat) + ((5 : Nat) : Rat) / (10 : Rat) ^ (1 : Nat))
        * (10 : Rat) ^ (0 : Int))) from rfl]
  have hq : (((12 : Nat) : Rat) + ((5 : Nat) : Rat) / (10 : Rat) ^ (1 : Nat))
      * (10 : Rat) ^ (0 : Int) = 25 / 2 := by
    norm_num
  rw [hq]

/-- C6: for every roster entry, a column-0 cell holding the entry
followed by a County suffix (with optional trailing punctuation), or
the entry in different letter case, resolves to that canonical roster
entry. -/
theorem claim6_county_matching :
    ∀ c ∈ SC_COUNTIES,
      resolveCounty (c ++ " County") = some c ∧
      resolveCounty (c ++ " county.") = some c ∧
      resolveCounty (c ++ " County,") = some c ∧
      resolveCounty (upperStr c) = some c ∧
      resolveCounty (lowerStr c) = some c := by
  decide

/-- Witness for C6 at the spec's own example, Richland. -/
theorem claim6_county_matching_witness :
    resolveCounty ("Richland" ++ " County") = some "Richland" ∧
    resolveCounty ("Richland" ++ " county.") = some "Richland" ∧
    resolveCounty ("Richland" ++ " County,") = some "Richland" ∧
    resolveCounty (upperStr "Richland") = some "Richland" ∧
    resolveCounty (lowerStr "Richland") = some "Richland" :=
  claim6_county_matching "Richland" (by decide)

/-- C5: every CountyMatch row position lies in the half-open row range
of its own section, so a county row one row before the next section's
header is never attributed to that next section. -/
theorem claim5_county_rows_in_bounds (grid : Grid) (s e : Nat) :
    ∀ cm ∈ find_county_rows_in_section grid s e, s ≤ cm.2 ∧ cm.2 < e := by
  intro cm hcm
  unfold find_county_rows_in_section at hcm
  rw [List.mem_filterMap] at hcm
  obtain ⟨i, hi, hopt⟩ := hcm
  unfold sliceIdx at hi
  rw [List.mem_filter] at hi
  have hcond : s ≤ i ∧ i < e := by simpa using hi.2
  cases hres : resolveCounty (cellToStr (cellAt grid i 0)) with
  | none => rw [hres] at hopt; simp at hopt
  | some c =>
    rw [hres] at hopt
    simp only [Option.map_some'] at hopt
    cases hopt
    exact hcond

/-- Witness for C5 on the demo section. -/
theorem claim5_county_rows_in_bounds_witness : 0 ≤ 2 ∧ 2 < 7 :=
  claim5_county_rows_in_bounds gridDemo 0 7 ("Richland", 2) (by decide)

/-- C3 counterexample: the label-based month search succeeds on a row
whose June label sits before the other labels, and returns columns
that are not in increasing order (June's column 1 after May's 11), so
the claimed in-order invariant fails; the search restarts each month
at the fixed July column instead of advancing a pointer. -/
theorem claim3_counterexample :
    get_month_column_positions_label gridMonths 0 = some [0,2,3,4,5,6,7,8,9,10,11,1] ∧
    ¬ List.Pairwise (fun a b => a ≤ b) [0,2,3,4,5,6,7,8,9,10,11,1] := by
  constructor
  · decide
  · decide

/-- C3 amended: whenever the label-based month search succeeds it
returns exactly 12 column indices (one per month, each the first
column at or after the fixed July start column containing the month
name); the indices need not be distinct or monotonically ordered. -/
theorem claim3_amended_twelve_columns (grid : Grid) (srow : Nat) (ps : List Nat)
    (h : get_month_column_positions_label grid srow = some ps) : ps.length = 12 := by
  unfold get_month_column_positions_label at h
  obtain ⟨ri, -, hrow⟩ := exists_of_findSome _ _ _ h
  unfold monthsSearchRow at hrow
  cases hjc : firstJulyCol (procRow grid ri) with
  | none => rw [hjc] at hrow; simp at hrow
  | some c0 =>
    rw [hjc] at hrow
    simp only at hrow
    split at hrow
    · cases hrow
      assumption
    · simp at hrow

/-- Witness for the amended C3 on the demonstration row. -/
theorem claim3_amended_witness : ([0,2,3,4,5,6,7,8,9,10,11,1] : List Nat).length = 12 :=
  claim3_amended_twelve_columns gridMonths 0 [0,2,3,4,5,6,7,8,9,10,11,1] (by decide)

/-- C4 counterexample: the same county name on two rows of one section
yields two CountyMatches, and both yield records (eight records here,
four per occurrence), so deduplication to the first occurrence does
not happen. -/
theorem claim4_counterexample :
    find_county_rows_in_section gridDup 0 11 = [("Richland", 1), ("Richland", 6)] ∧
    (emit_section_records gridDup "f" 0 "Estate" 2022 2023 11).length = 8 := by
  constructor
  · decide
  · decide

/-- C4 amended: each row of the section range contributes at most one
CountyMatch (row positions are strictly increasing, and each match is
the resolution of its own row's column-0 text, first roster entry
winning); a county name appearing on several rows yields one
CountyMatch per row and every one is processed. -/
theorem claim4_amended_per_row (grid : Grid) (s e : Nat) :
    List.Pairwise (fun a b => a < b)
      ((find_county_rows_in_section grid s e).map (fun cm => cm.2)) ∧
    ∀ cm ∈ find_county_rows_in_section grid s e,
      resolveCounty (cellToStr (cellAt grid cm.2 0)) = some cm.1 := by
  constructor
  · have hf : ∀ (i : Nat) (x : String × Nat),
        (resolveCounty (cellToStr (cellAt grid i 0))).map (fun county => (county, i)) = some x →
        x.2 = i := by
      intro i x hx
      cases hres : resolveCounty (cellToStr (cellAt grid i 0)) with
      | none => rw [hres] at hx; simp at hx
      | some c => rw [hres] at hx; simp only [Option.map_some'] at hx; cases hx; rfl
    have hsub := filterMap_proj_sublist
      (fun i => (resolveCounty (cellToStr (cellAt grid i 0))).map (fun county => (county, i)))
      (fun cm => cm.2) hf (sliceIdx grid.length s e)
    have hpw : List.Pairwise (fun a b => a < b) (sliceIdx grid.length s e) :=
      (List.pairwise_lt_range grid.length).filter _
    exact hpw.sublist hsub
  · intro cm hcm
    unfold find_county_rows_in_section at hcm
    rw [List.mem_filterMap] at hcm
    obtain ⟨i, -, hopt⟩ := hcm
    cases hres : resolveCounty (cellToStr (cellAt grid i 0)) with
    | none => rw [hres] at hopt; simp at hopt
    | some c =>
      rw [hres] at hopt
      simp only [Option.map_some'] at hopt
      cases hopt
      exact hres

/-- Witness for the amended C4 on the duplicate-county section. -/
theorem claim4_amended_witness :
    resolveCounty (cellToStr (cellAt gridDup 1 0)) = some "Richland" :=
  (claim4_amended_per_row gridDup 0 11).2 ("Richland", 1) (by decide)

theorem metric_rows_length (cat : String) (pos : Nat) :
    (metric_rows_for cat pos).length = if mentalHealthCat cat then 2 else 4 := by
  unfold metric_rows_for
  by_cases h : mentalHealthCat cat <;> simp [h]

theorem metric_rows_getD (cat : String) (pos mi : Nat)
    (hmi : mi < (metric_rows_for cat pos).length) :
    (metric_rows_for cat pos).getD mi 0 = pos + 1 + mi := by
  unfold metric_rows_for at hmi ⊢
  by_cases hm : mentalHealthCat cat
  · rw [if_pos hm] at hmi ⊢
    rw [range'_getD 2 (pos + 1) mi (by simpa using hmi)]
  · rw [if_neg hm] at hmi ⊢
    rw [range'_getD 4 (pos + 1) mi (by simpa using hmi)]

/-- C1: for a county match whose metric block fits inside the section
and the grid, the number of emitted records equals the category's
metric-row count (2 for Mental Health, 4 otherwise) times the number
of month columns found for the section. -/
theorem claim1_records_per_county (grid : Grid) (file cat : String) (y1 y2 : Int)
    (srow send : Nat) (county : String) (pos : Nat)
    (hcat : cat ∈ VALID_CATEGORIES)
    (hb : ¬ (gridRows grid ≤ (metric_rows_for cat pos).getLastD 0 ∨
             send ≤ (metric_rows_for cat pos).getLastD 0)) :
    (emit_county_records grid file cat y1 y2 (get_month_column_positions grid srow)
        send county pos).length
      = (if cat = "Mental Health" then 2 else 4) *
        (get_month_column_positions grid srow).length := by
  have hlen : (emit_county_records grid file cat y1 y2
      (get_month_column_positions grid srow) send county pos).length
      = (metric_rows_for cat pos).length * (get_month_column_positions grid srow).length := by
    simp only [emit_county_records]
    rw [if_neg hb]
    rw [length_flatMap_const _ (get_month_column_positions grid srow).length _
      (fun a _ => by simp [List.enum_length])]
    rw [List.enum_length]
  rw [hlen, metric_rows_length]
  congr 1
  have hcat' : cat ∈ ["Estate", "Guardian", "Conservator", "Mental Health"] := hcat
  fin_cases hcat' <;> decide

/-- Witness for C1 on the demo section (four metric rows, one month
column, four records). -/
theorem claim1_records_per_county_witness :
    (emit_county_records gridDemo "f" "Estate" 2022 2023
        (get_month_column_positions gridDemo 0) 7 "Richland" 2).length
      = (if "Estate" = "Mental Health" then 2 else 4) *
        (get_month_column_positions gridDemo 0).length :=
  claim1_records_per_county gridDemo "f" "Estate" 2022 2023 0 7 "Richland" 2
    (by decide) (by decide)

/-- C8: a county whose last required metric row reaches the section's
exclusive row end or the grid's row count yields no records, and the
other counties of the section are processed unchanged. -/
theorem claim8_insufficient_rows_skip (grid : Grid) (file cat : String) (y1 y2 : Int)
    (cols : List Nat) (send : Nat) (county : String) (pos : Nat)
    (h : gridRows grid ≤ (metric_rows_for cat pos).getLastD 0 ∨
         send ≤ (metric_rows_for cat pos).getLastD 0) :
    emit_county_records grid file cat y1 y2 cols send county pos = [] ∧
    ∀ pre post : List (String × Nat),
      (pre ++ (county, pos) :: post).flatMap
          (fun cm => emit_county_records grid file cat y1 y2 cols send cm.1 cm.2)
        = pre.flatMap (fun cm => emit_county_records grid file cat y1 y2 cols send cm.1 cm.2)
          ++ post.flatMap (fun cm => emit_county_records grid file cat y1 y2 cols send cm.1 cm.2) := by
  have h1 : emit_county_records grid file cat y1 y2 cols send county pos = [] := by
    simp only [emit_county_records]
    rw [if_pos h]
  refine ⟨h1, fun pre post => ?_⟩
  rw [List.flatMap_append, List.flatMap_cons]
  simp [h1]

/-- Witness for C8: the demo county against a section end of 3. -/
theorem claim8_insufficient_rows_skip_witness :
    emit_county_records gridDemo "f" "Estate" 2022 2023 [2] 3 "Richland" 2 = [] :=
  (claim8_insufficient_rows_skip gridDemo "f" "Estate" 2022 2023 [2] 3 "Richland" 2
    (by decide)).1

/-- C10: when the county's block fits, the record list has exactly the
full metric-by-month size, and the record for metric row mi and month
column ci sits at index mi * (number of columns) + ci and carries the
coerced cell value, which may be absent; a blank or unparsable cell
never suppresses the record. -/
theorem claim10_one_record_per_triple (grid : Grid) (file cat : String) (y1 y2 : Int)
    (cols : List Nat) (send : Nat) (county : String) (pos : Nat)
    (hb : ¬ (gridRows grid ≤ (metric_rows_for cat pos).getLastD 0 ∨
             send ≤ (metric_rows_for cat pos).getLastD 0))
    (mi ci : Nat) (hmi : mi < (metric_rows_for cat pos).length) (hci : ci < cols.length) :
    (emit_county_records grid file cat y1 y2 cols send county pos).length
      = (metric_rows_for cat pos).length * cols.length ∧
    (emit_county_records grid file cat y1 y2 cols send county pos)[mi * cols.length + ci]?
      = some
        { file := file
          category := cat
          year := year_for y1 y2 (month_name_at ci)
          month := month_name_at ci
          county := county
          metric := ((metric_rows_for cat pos).map
            (fun r => map_metric (vocab_for cat) (metric_label_at grid r))).getD mi ""
          value := cell_to_number (cellAt grid (pos + 1 + mi) (cols.getD ci 0)) } := by
  constructor
  · simp only [emit_county_records]
    rw [if_neg hb]
    rw [length_flatMap_const _ cols.length _ (fun a _ => by simp [List.enum_length])]
    rw [List.enum_length]
  · simp only [emit_county_records]
    rw [if_neg hb]
    rw [getElem?_flatMap_const _ cols.length ((0 : Nat), (0 : Nat)) _ mi ci
      (fun a _ => by simp [List.enum_length])
      (by simpa [List.enum_length] using hmi) hci]
    have houter : (metric_rows_for cat pos).enum.getD mi ((0 : Nat), (0 : Nat))
        = (mi, pos + 1 + mi) := by
      show (List.enumFrom 0 (metric_rows_for cat pos)).getD mi ((0 : Nat), (0 : Nat))
        = (mi, pos + 1 + mi)
      rw [enumFrom_getD 0 0 (metric_rows_for cat pos) 0 mi hmi]
      rw [Nat.zero_add, metric_rows_getD cat pos mi hmi]
    rw [houter]
    rw [List.getElem?_map]
    rw [getElem?_eq_some_getD cols.enum ci ((0 : Nat), (0 : Nat))
      (by simpa [List.enum_length] using hci)]
    have hinner : cols.enum.getD ci ((0 : Nat), (0 : Nat)) = (ci, cols.getD ci 0) := by
      show (List.enumFrom 0 cols).getD ci ((0 : Nat), (0 : Nat)) = (ci, cols.getD ci 0)
      rw [enumFrom_getD 0 0 cols 0 ci hci, Nat.zero_add]
    rw [hinner]
    rfl

/-- Witness for C10: the blank Disposed cell of the demo section still
yields a record (index 2), with an absent value. -/
theorem claim10_one_record_per_triple_witness :
    (emit_county_records gridDemo "f" "Estate" 2022 2023 [2] 7 "Richland" 2).length
      = (metric_rows_for "Estate" 2).length * ([2] : List Nat).length ∧
    (emit_county_records gridDemo "f" "Estate" 2022 2023 [2] 7 "Richland" 2)[2 * ([2] : List Nat).length + 0]?
      = some
        { file := "f"
          category := "Estate"
          year := year_for 2022 2023 (month_name_at 0)
          month := month_name_at 0
          county := "Richland"
          metric := ((metric_rows_for "Estate" 2).map
            (fun r => map_metric (vocab_for "Estate") (metric_label_at gridDemo r))).getD 2 ""
          value := cell_to_number (cellAt gridDemo (2 + 1 + 2) (([2] : List Nat).getD 0 0)) } :=
  claim10_one_record_per_triple gridDemo "f" "Estate" 2022 2023 [2] 7 "Richland" 2
    (by decide) 2 0 (by decide) (by decide)

theorem year_for_months (y1 y2 : Int) (m : String) :
    (m ∈ ["July", "August", "September", "October", "November", "December"] →
      year_for y1 y2 m = y1) ∧
    (m ∈ ["January", "February", "March", "April", "May", "June"] →
      year_for y1 y2 m = y2) := by
  constructor
  · intro hm
    fin_cases hm <;> (simp only [year_for]; rw [if_pos (by decide)])
  · intro hm
    fin_cases hm <;> (simp only [year_for]; rw [if_neg (by decide)])

/-- C2: every record emitted for a section carries the section's start
year when its month is July through December and the section's end
year when its month is January through June. -/
theorem claim2_year_assignment (grid : Grid) (file : String) (srow : Nat) (cat : String)
    (y1 y2 : Int) (send : Nat) (e : Entry)
    (he : e ∈ emit_section_records grid file srow cat y1 y2 send) :
    (e.month ∈ ["July", "August", "September", "October", "November", "December"] →
      e.year = y1) ∧
    (e.month ∈ ["January", "February", "March", "April", "May", "June"] →
      e.year = y2) := by
  simp only [emit_section_records, List.mem_flatMap] at he
  obtain ⟨cm, -, he⟩ := he
  simp only [emit_county_records] at he
  split at he
  · simp at he
  · simp only [List.mem_flatMap, List.mem_map] at he
    obtain ⟨p, -, q, -, rfl⟩ := he
    exact year_for_months y1 y2 (month_name_at q.1)

/-- Witness for C2: the July record of the demo section carries the
start year 2022. -/
theorem claim2_year_assignment_witness : entryDemo.year = 2022 :=
  (claim2_year_assignment gridDemo "f" 0 "Estate" 2022 2023 7 entryDemo (by decide)).1
    (by decide)

theorem headerAt_fst {grid : Grid} {i : Nat} {x : Nat × String × Int × Int}
    (h : headerAt grid i = some x) : x.1 = i := by
  unfold headerAt at h
  by_cases hm : markerInRow grid i
  · rw [if_pos hm] at h
    cases hc : extract_category_from_header grid i with
    | none => rw [hc] at h; exact Option.noConfusion h
    | some cat =>
      rw [hc] at h
      cases hy : extract_years_from_section grid i with
      | none => rw [hy] at h; exact Option.noConfusion h
      | some yz =>
        obtain ⟨y1, y2⟩ := yz
        rw [hy] at h
        cases h
        rfl
  · rw [if_neg hm] at h
    exact Option.noConfusion h

theorem headerAt_discarded {grid : Grid} {r : Nat}
    (hmark : markerInRow grid r = true)
    (hdisc : extract_category_from_header grid r = none ∨
             extract_years_from_section grid r = none) :
    headerAt grid r = none := by
  unfold headerAt
  rw [if_pos hmark]
  rcases hdisc with hd | hd
  · rw [hd]
  · cases hc : extract_category_from_header grid r with
    | none => rfl
    | some cat => rw [hd]

theorem mem_find_header_rows {grid : Grid} {x : Nat × String × Int × Int}
    (hx : x ∈ find_header_rows grid) : headerAt grid x.1 = some x := by
  unfold find_header_rows at hx
  rw [List.mem_filterMap] at hx
  obtain ⟨i, -, hi⟩ := hx
  rw [headerAt_fst hi]
  exact hi

theorem markerInRow_lt (grid : Grid) (r : Nat) (h : markerInRow grid r = true) :
    r < gridRows grid := by
  by_contra hge
  push_neg at hge
  have hnone : grid.getD r [] = [] := by
    rw [List.getD_eq_getElem?_getD, List.getElem?_eq_none hge]
    rfl
  unfold markerInRow rowStr at h
  rw [hnone] at h
  exact absurd h (by decide)

/-- C9: a row holding the marker phrase whose candidate section is
discarded (no category or no period recoverable) never appears among
the header rows, and the preceding valid section's exclusive row end
extends past the discarded row (to the next valid header row or the
grid end), so the rows beneath the discarded header stay inside the
preceding section's county-scan range. -/
theorem claim9_discarded_header_absorbed (grid : Grid) (r : Nat)
    (hmark : markerInRow grid r = true)
    (hdisc : extract_category_from_header grid r = none ∨
             extract_years_from_section grid r = none)
    (k h : Nat) (cat : String) (y1 y2 : Int)
    (hk : k < (find_header_rows grid).length)
    (heq : (find_header_rows grid).getD k (0, "", 0, 0) = (h, cat, y1, y2))
    (hhr : h < r)
    (hbetween : ∀ x ∈ find_header_rows grid, x.1 ≤ h ∨ r < x.1) :
    (∀ x ∈ find_header_rows grid, x.1 ≠ r) ∧
    r < section_end_at grid (find_header_rows grid) k := by
  constructor
  · intro x hx hxr
    have h1 := mem_find_header_rows hx
    rw [hxr] at h1
    rw [headerAt_discarded hmark hdisc] at h1
    exact Option.noConfusion h1
  · unfold section_end_at
    by_cases hk1 : k + 1 < (find_header_rows grid).length
    · rw [if_pos hk1]
      have hx : (find_header_rows grid).getD (k + 1) (0, "", 0, 0) ∈ find_header_rows grid :=
        getD_mem _ _ _ hk1
      have hsub := filterMap_proj_sublist (headerAt grid) (fun x => x.1)
        (fun i x hxi => headerAt_fst hxi) (List.range grid.length)
      have hpw : List.Pairwise (fun a b => a < b)
          ((find_header_rows grid).map (fun x => x.1)) :=
        (List.pairwise_lt_range grid.length).sublist hsub
      have hpw' := List.pairwise_iff_getElem.mp hpw k (k + 1)
        (by simpa using hk) (by simpa using hk1) (by omega)
      rw [List.getElem_map, List.getElem_map] at hpw'
      have hgk : (find_header_rows grid)[k] = (h, cat, y1, y2) := by
        rw [← heq, List.getD_eq_getElem?_getD, List.getElem?_eq_getElem hk]
        rfl
      have hgk1 : (find_header_rows grid).getD (k + 1) (0, "", 0, 0)
          = (find_header_rows grid)[k + 1] := by
        rw [List.getD_eq_getElem?_getD, List.getElem?_eq_getElem hk1]
        rfl
      have hgt : h < ((find_header_rows grid).getD (k + 1) (0, "", 0, 0)).1 := by
        rw [hgk1]
        rw [hgk] at hpw'
        exact hpw'
      rcases hbetween _ hx with hle | hlt
      · omega
      · exact hlt
    · rw [if_neg hk1]
      exact markerInRow_lt grid r hmark

/-- Witness for C9: the discarded marker row 7 of gridC9 lies inside
the first (and only valid) section's row range, whose end is the grid
end 8. -/
theorem claim9_discarded_header_absorbed_witness :
    7 < section_end_at gridC9 (find_header_rows gridC9) 0 :=
  (claim9_discarded_header_absorbed gridC9 7 (by decide) (Or.inl (by decide))
    0 0 "Estate" 2022 2023 (by decide) (by decide) (by decide) (by decide)).2

end Caseloads
